import Mathlib

/-!
Shallow embedding of the SSH tunnel manager (`src/main.c` of
`active-ssh-tunnels`) and proofs about it.

Modelling conventions:
* C strings become Lean `String`; `strstr` becomes an executable infix search
  over the character list; `strncpy`/`fgets` buffer limits become `List.take`
  on the character list.
* C `int` becomes `Int` (ports, exit codes, delays); JSON numbers are modelled
  as `Int` (the configuration only ever stores integral values).
* The cJSON document tree is modelled by an inductive `JValue`; reading a file
  from disk and textual printing/parsing are outside the model, so
  `load_config` consumes a parsed document and `save_config` produces one.
  `cJSON_GetObjectItem` is case-insensitive, and is modelled that way.
* Thread handles (`pthread_t`) become `Option Nat` (a fresh `Nat` per spawn);
  OS effects (spawn success, key-file `stat`, log `fopen`) become explicit
  boolean oracles passed to the operations.
-/

/-- `tunnel_status_t` from `main.c`. -/
inductive TunnelStatus where
  | STOPPED
  | STARTING
  | RUNNING
  | ERROR
  | AUTH_ERROR
  | PORT_ERROR
  | RECONNECTING
  deriving DecidableEq, Repr

/-- `tunnel_type_t` from `main.c`. -/
inductive TunnelType where
  | FORWARD
  | REVERSE
  deriving DecidableEq, Repr

/-- Occurrence of `needle` as a contiguous run in a character list:
the boolean result of C `strstr(hay, needle) != NULL`. -/
def hasInfix (needle : List Char) : List Char → Bool
  | [] => needle.isEmpty
  | c :: rest => needle.isPrefixOf (c :: rest) || hasInfix needle rest

/-- `strstr(hay, needle) != NULL` on strings. -/
def strstrB (hay needle : String) : Bool :=
  hasInfix needle.data hay.data

/-- The thirteen early-output trigger substrings tested by the outer
condition at `main.c:234-246`, in source order. -/
def earlyTriggers : List String :=
  [ "Permission denied"
  , "Connection refused"
  , "Host key verification failed"
  , "No such file"
  , "Authentication failed"
  , "Could not resolve hostname"
  , "bind: Address already in use"
  , "Permissions"
  , "too open"
  , "remote port forwarding failed"
  , "Warning: remote port forwarding failed"
  , "cannot listen to port"
  , "bind: Cannot assign requested address" ]

/-- The AUTH_ERROR bucket substrings (`main.c:249-250`). -/
def authTriggers : List String :=
  [ "Permission denied"
  , "Authentication failed"
  , "Permissions"
  , "too open" ]

/-- The PORT_ERROR bucket substrings (`main.c:253-257`). -/
def portTriggers : List String :=
  [ "bind: Address already in use"
  , "remote port forwarding failed"
  , "Warning: remote port forwarding failed"
  , "cannot listen to port"
  , "bind: Cannot assign requested address" ]

/-- The early-output classifier of `tunnel_worker` (`main.c:234-268`):
given the `has_output` flag and the accumulated `all_output` string, it
assigns a status when the outer trigger disjunction fires, and `none`
otherwise (the code then proceeds without touching the status). -/
def classify_early_output (has_output : Bool) (all_output : String) : Option TunnelStatus :=
  if has_output && earlyTriggers.any (fun p => strstrB all_output p) then
    some (if authTriggers.any (fun p => strstrB all_output p) then
            TunnelStatus.AUTH_ERROR
          else if portTriggers.any (fun p => strstrB all_output p) then
            TunnelStatus.PORT_ERROR
          else
            TunnelStatus.ERROR)
  else
    none

/-- The `tunnel_t` struct (`main.c:55-75`).  The `FILE *log` sink is modelled
by a boolean recording whether the `fopen` at registration succeeded; the
worker thread handle `pthread_t thread` by `Option Nat`. -/
structure Tunnel where
  name : String
  host : String
  port : Int
  user : String
  ssh_key : String
  ttype : TunnelType
  local_port : Int
  remote_host : String
  remote_port : Int
  reconnect_delay : Int
  restart_count : Int
  status : TunnelStatus
  last_restart : Int
  thread : Option Nat
  log : Bool
  ssh_pid : Int
  should_run : Bool
  deriving DecidableEq, Repr

/-- `MAX_TUNNELS` (`main.c:32`). -/
def MAX_TUNNELS : Nat := 32

/-- A cJSON document tree.  Numbers are modelled as `Int` (the configuration
stores only integral values). -/
inductive JValue where
  | jnull
  | jbool (b : Bool)
  | jnum (n : Int)
  | jstr (s : String)
  | jarr (elems : List JValue)
  | jobj (fields : List (String × JValue))

/-- ASCII-case-insensitive string comparison, as cJSON's key lookup uses. -/
def ciEq (a b : String) : Bool :=
  (a.data.map Char.toLower) == (b.data.map Char.toLower)

/-- `cJSON_GetObjectItem` (case-insensitive first match). -/
def jsonLookup (v : JValue) (key : String) : Option JValue :=
  match v with
  | JValue.jobj fields =>
      (fields.find? (fun f => ciEq f.1 key)).map (·.2)
  | _ => none

def jsonIsString : Option JValue → Bool
  | some (JValue.jstr _) => true
  | _ => false

def jsonIsNumber : Option JValue → Bool
  | some (JValue.jnum _) => true
  | _ => false

def jsonGetString : Option JValue → String
  | some (JValue.jstr s) => s
  | _ => ""

def jsonGetNumber : Option JValue → Int
  | some (JValue.jnum n) => n
  | _ => 0

/-- `strncpy(dst, src, n)` into a buffer of size `n + 1`: keep the first `n`
characters. -/
def strncpyN (s : String) (n : Nat) : String :=
  String.mk (s.data.take n)

/-- Parsing of one element of the `tunnels` array (`main.c:409-483`).
`none` means the entry is skipped with a warning (non-object element, or a
required field missing or of the wrong type); `some t` is the tunnel
appended to the table.  The SSH-key `stat` and the log `fopen` only print
warnings and set the sink; the sink outcome is the `logOk` oracle. -/
def parse_tunnel_entry (logOk : Bool) (v : JValue) : Option Tunnel :=
  match v with
  | JValue.jobj _ =>
      let name := jsonLookup v "name"
      let host := jsonLookup v "host"
      let port := jsonLookup v "port"
      let user := jsonLookup v "user"
      let ssh_key := jsonLookup v "ssh_key"
      let ty := jsonLookup v "type"
      let local_port := jsonLookup v "local_port"
      let remote_host := jsonLookup v "remote_host"
      let remote_port := jsonLookup v "remote_port"
      let reconnect_delay := jsonLookup v "reconnect_delay"
      if jsonIsString name && jsonIsString host && jsonIsNumber port &&
         jsonIsString user && jsonIsString ssh_key && jsonIsNumber local_port &&
         jsonIsString remote_host && jsonIsNumber remote_port then
        some
          { name := strncpyN (jsonGetString name) 63
            host := strncpyN (jsonGetString host) 127
            port := jsonGetNumber port
            user := strncpyN (jsonGetString user) 63
            ssh_key := strncpyN (jsonGetString ssh_key) 255
            ttype :=
              if jsonIsString ty then
                if jsonGetString ty = "reverse" then TunnelType.REVERSE
                else TunnelType.FORWARD
              else TunnelType.FORWARD
            local_port := jsonGetNumber local_port
            remote_host := strncpyN (jsonGetString remote_host) 127
            remote_port := jsonGetNumber remote_port
            reconnect_delay :=
              if jsonIsNumber reconnect_delay then jsonGetNumber reconnect_delay
              else 5
            restart_count := 0
            status := TunnelStatus.STOPPED
            last_restart := 0
            thread := none
            log := logOk
            ssh_pid := 0
            should_run := false }
      else
        none
  | _ => none

/-- `load_config` (`main.c:361-489`) after the file has been read and parsed:
the input is the parsed document (file-missing/unreadable and JSON syntax
errors abort before this point and also return `-1`).  Returns `none` for the
error return `-1`, otherwise the new table (the code resets `manager.count`
to 0 and then fills the array, so the previous table is discarded). -/
def load_config (logOk : Bool) (doc : JValue) : Option (List Tunnel) :=
  match jsonLookup doc "tunnels" with
  | some (JValue.jarr elems) =>
      if elems.length > MAX_TUNNELS then none
      else some (elems.filterMap (parse_tunnel_entry logOk))
  | _ => none

/-- One entry of the document emitted by `save_config` (`main.c:496-510`). -/
def tunnel_to_json (t : Tunnel) : JValue :=
  JValue.jobj
    [ ("name", JValue.jstr t.name)
    , ("user", JValue.jstr t.user)
    , ("host", JValue.jstr t.host)
    , ("port", JValue.jnum t.port)
    , ("ssh_key", JValue.jstr t.ssh_key)
    , ("type", JValue.jstr (if t.ttype = TunnelType.REVERSE then "reverse" else "forward"))
    , ("local_port", JValue.jnum t.local_port)
    , ("remote_host", JValue.jstr t.remote_host)
    , ("remote_port", JValue.jnum t.remote_port)
    , ("reconnect_delay", JValue.jnum t.reconnect_delay) ]

/-- `save_config` (`main.c:491-527`): the document written to disk. -/
def save_config (tbl : List Tunnel) : JValue :=
  JValue.jobj [("tunnels", JValue.jarr (tbl.map tunnel_to_json))]

/-- The key list of a JSON object (for stating what the writer emits). -/
def objKeys : JValue → List String
  | JValue.jobj fields => fields.map (·.1)
  | _ => []

/-- The persisted field subset of a tunnel (identity and configuration,
no runtime state). -/
structure PersistedFields where
  name : String
  user : String
  host : String
  port : Int
  ssh_key : String
  ttype : TunnelType
  local_port : Int
  remote_host : String
  remote_port : Int
  reconnect_delay : Int
  deriving DecidableEq, Repr

/-- Projection of a tunnel onto the persisted field subset. -/
def persisted (t : Tunnel) : PersistedFields :=
  { name := t.name
    user := t.user
    host := t.host
    port := t.port
    ssh_key := t.ssh_key
    ttype := t.ttype
    local_port := t.local_port
    remote_host := t.remote_host
    remote_port := t.remote_port
    reconnect_delay := t.reconnect_delay }

/-- Field-size bounds that every tunnel actually held in the C table
satisfies by construction (every write path goes through `fgets` buffers
and `strncpy` with these limits). -/
def fieldsInBounds (t : Tunnel) : Prop :=
  t.name.data.length ≤ 63 ∧ t.user.data.length ≤ 63 ∧
  t.host.data.length ≤ 127 ∧ t.ssh_key.data.length ≤ 255 ∧
  t.remote_host.data.length ≤ 127

/-- The tunnel produced by re-parsing the saved form of `t`: configuration
fields pass through the `strncpy` limits, the `type` string round-trips
through its rendering, and the runtime state is freshly zeroed. -/
def reload_tunnel (logOk : Bool) (t : Tunnel) : Tunnel :=
  { name := strncpyN t.name 63
    host := strncpyN t.host 127
    port := t.port
    user := strncpyN t.user 63
    ssh_key := strncpyN t.ssh_key 255
    ttype :=
      if (if t.ttype = TunnelType.REVERSE then "reverse" else "forward") = "reverse"
      then TunnelType.REVERSE else TunnelType.FORWARD
    local_port := t.local_port
    remote_host := strncpyN t.remote_host 127
    remote_port := t.remote_port
    reconnect_delay := t.reconnect_delay
    restart_count := 0
    status := TunnelStatus.STOPPED
    last_restart := 0
    thread := none
    log := logOk
    ssh_pid := 0
    should_run := false }

/-- The operator's answers to the `add` prompt sequence
(`main.c:647-728`).  Numeric fields hold the `atoi` result of the typed
line; `reconnectDelayInput` is `some d` when the operator typed a
non-empty delay line (`strlen(input_buffer) > 1`) and `none` when the
default 5 applies. -/
structure AddScript where
  nameInput : String
  userInput : String
  hostInput : String
  sshKeyInput : String
  typeInput : String
  remoteHostInput : String
  portInput : Int
  localPortInput : Int
  remotePortInput : Int
  reconnectDelayInput : Option Int
  confirmLoose : String
  deriving DecidableEq, Repr

/-- Outcomes of the OS calls made during registration: `stat` on the key
file, its permission bits (`st_mode & 0777`), and the log `fopen`. -/
structure FsOracle where
  keyExists : Bool
  keyPerms : Int
  logOk : Bool
  deriving DecidableEq, Repr

/-- `type_input[0] == 'r' || type_input[0] == 'R'` (`main.c:694`); an empty
line leaves a NUL first byte, selecting forward. -/
def firstCharIs_rR (s : String) : Bool :=
  match s.data with
  | [] => false
  | c :: _ => c == 'r' || c == 'R'

/-- `confirm[0] == 'y' || confirm[0] == 'Y'` (`main.c:755`). -/
def firstCharIs_yY (s : String) : Bool :=
  match s.data with
  | [] => false
  | c :: _ => c == 'y' || c == 'Y'

/-- The tunnel type chosen by the type prompt (`main.c:694-700`). -/
def tunnel_type_of (script : AddScript) : TunnelType :=
  if firstCharIs_rR script.typeInput then TunnelType.REVERSE
  else TunnelType.FORWARD

/-- The `remote_host` local variable after the prompt sequence
(`main.c:706-722`): for a reverse tunnel always `"127.0.0.1"`, otherwise
the operator's answer (through its `fgets` buffer of 128). -/
def remote_host_of (script : AddScript) : String :=
  if tunnel_type_of script = TunnelType.REVERSE then "127.0.0.1"
  else strncpyN script.remoteHostInput 127

/-- The reconnect delay: the typed value when the delay line was non-empty,
else the default 5 (`main.c:724-728`). -/
def reconnect_delay_of (script : AddScript) : Int :=
  match script.reconnectDelayInput with
  | some d => d
  | none => 5

/-- The input validation at `main.c:730-736`: any empty required string or
any nonpositive port rejects the tunnel.  (No upper bound is tested.) -/
def add_invalid_input (script : AddScript) : Prop :=
  strncpyN script.nameInput 63 = "" ∨ strncpyN script.userInput 63 = "" ∨
  strncpyN script.hostInput 127 = "" ∨ strncpyN script.sshKeyInput 255 = "" ∨
  remote_host_of script = "" ∨ script.portInput ≤ 0 ∨
  script.localPortInput ≤ 0 ∨ script.remotePortInput ≤ 0

instance (script : AddScript) : Decidable (add_invalid_input script) := by
  unfold add_invalid_input
  infer_instance

/-- The tunnel appended by `add_tunnel_interactive` (`main.c:772-795`):
the local prompt variables copied through `strncpy` limits, runtime state
zeroed. -/
def add_candidate (script : AddScript) (fs : FsOracle) : Tunnel :=
  { name := strncpyN (strncpyN script.nameInput 63) 63
    host := strncpyN (strncpyN script.hostInput 127) 127
    port := script.portInput
    user := strncpyN (strncpyN script.userInput 63) 63
    ssh_key := strncpyN (strncpyN script.sshKeyInput 255) 255
    ttype := tunnel_type_of script
    local_port := script.localPortInput
    remote_host := strncpyN (remote_host_of script) 127
    remote_port := script.remotePortInput
    reconnect_delay := reconnect_delay_of script
    restart_count := 0
    status := TunnelStatus.STOPPED
    last_restart := 0
    thread := none
    log := fs.logOk
    ssh_pid := 0
    should_run := false }

/-- `add_tunnel_interactive` (`main.c:647-812`): capacity check, prompt
sequence (with the `fgets` buffer limits applied to each answer), input
validation, key-file existence and permission checks, duplicate-name scan,
then append.  Returns the new table and whether a tunnel was added.  The
trailing `save_config` call and the optional immediate start
(`start_tunnel_by_name`) act after the table mutation and are modelled by
the corresponding operations separately. -/
def add_tunnel_interactive (script : AddScript) (fs : FsOracle)
    (tbl : List Tunnel) : List Tunnel × Bool :=
  if tbl.length ≥ MAX_TUNNELS then (tbl, false)
  else if add_invalid_input script then (tbl, false)
  else if fs.keyExists = false then (tbl, false)
  else if 384 < fs.keyPerms ∧ firstCharIs_yY script.confirmLoose = false then
    (tbl, false)
  else if ∃ u ∈ tbl, u.name = strncpyN script.nameInput 63 then (tbl, false)
  else (tbl ++ [add_candidate script fs], true)

/-- An all-successful OS oracle: key file present with mode 600, log opens. -/
def fsOk : FsOracle := { keyExists := true, keyPerms := 384, logOk := true }

/-- A prompt script whose SSH port answer is 70000 (outside 1–65535) and
whose other answers are all well-formed. -/
def scriptPort70000 : AddScript :=
  { nameInput := "big-port", userInput := "u", hostInput := "h.example",
    sshKeyInput := "/home/u/.ssh/id", typeInput := "f",
    remoteHostInput := "127.0.0.1", portInput := 70000,
    localPortInput := 8080, remotePortInput := 80,
    reconnectDelayInput := none, confirmLoose := "" }

/-- One well-formed config entry named `dup`. -/
def dupEntry : JValue :=
  JValue.jobj
    [ ("name", JValue.jstr "dup"), ("host", JValue.jstr "h.example")
    , ("port", JValue.jnum 22), ("user", JValue.jstr "u")
    , ("ssh_key", JValue.jstr "/k"), ("local_port", JValue.jnum 1)
    , ("remote_host", JValue.jstr "r"), ("remote_port", JValue.jnum 2) ]

/-- A config document whose `tunnels` array holds the same named entry
twice. -/
def dupDoc : JValue := JValue.jobj [("tunnels", JValue.jarr [dupEntry, dupEntry])]

/-- A sequence of interactive `add` operations applied to a table. -/
def apply_adds : List (AddScript × FsOracle) → List Tunnel → List Tunnel
  | [], tbl => tbl
  | op :: rest, tbl => apply_adds rest (add_tunnel_interactive op.1 op.2 tbl).1

/-- The post-exit handling of the supervised SSH child
(`main.c:320-350`): from the `pclose` result and the current `should_run`
flag, the new tunnel status and whether the worker loop executes `break`.
A nonzero exit code sleeps and `continue`s (no `break`); a zero exit code
yields `RECONNECTING` and a retry when `should_run` still holds, else
`STOPPED` and `break`. -/
def worker_exit_transition (exit_code : Int) (should_run : Bool) :
    TunnelStatus × Bool :=
  if exit_code ≠ 0 then
    (if exit_code = 255 then TunnelStatus.AUTH_ERROR else TunnelStatus.ERROR,
     false)
  else
    (if should_run then TunnelStatus.RECONNECTING else TunnelStatus.STOPPED,
     !should_run)

/-- The worker-loop head (`main.c:165-170`): while `should_run` and the
global running flag hold, each iteration sets `STARTING`, increments
`restart_count` and stamps `last_restart`; otherwise the body is not
entered. -/
def worker_iteration_enter (t : Tunnel) (running : Bool) (now : Int) : Tunnel :=
  if t.should_run && running then
    { t with status := TunnelStatus.STARTING,
             restart_count := t.restart_count + 1,
             last_restart := now }
  else t

/-- The by-name reset applied to the matching tunnel
(`main.c:616-635`): stop (`should_run := 0`, join clears the handle), zero
the restart counter, set `should_run := 1` and spawn a fresh worker
(`spawnOk` is the `pthread_create` outcome; on failure `should_run` is
cleared again). -/
def reset_one (fresh : Nat) (spawnOk : Bool) (t : Tunnel) : Tunnel :=
  if spawnOk then
    { t with should_run := true, thread := some fresh, restart_count := 0 }
  else
    { t with should_run := false, thread := none, restart_count := 0 }

/-- `reset_tunnel_by_name` (`main.c:610-645`): linear scan, first match is
reset and the loop breaks; returns the new table and the `found` flag. -/
def reset_tunnel_by_name (fresh : Nat) (spawnOk : Bool) :
    List Tunnel → String → List Tunnel × Bool
  | [], _ => ([], false)
  | t :: rest, nm =>
      if t.name = nm then (reset_one fresh spawnOk t :: rest, true)
      else
        let r := reset_tunnel_by_name fresh spawnOk rest nm
        (t :: r.1, r.2)

/-- A configured tunnel with a worker already attached and a nonzero
restart history, used as a concrete witness input. -/
def sampleTunnel : Tunnel :=
  { name := "db-prod", host := "example.com", port := 22, user := "ops",
    ssh_key := "/home/ops/.ssh/id", ttype := TunnelType.FORWARD,
    local_port := 5432, remote_host := "127.0.0.1", remote_port := 5432,
    reconnect_delay := 5, restart_count := 4,
    status := TunnelStatus.RUNNING, last_restart := 50,
    thread := some 9, log := true, ssh_pid := 0, should_run := true }

/-- Observable manager actions: mutex acquisition/release and a
`pthread_create` call handing out worker handle `h`. -/
inductive MgrEvent where
  | lock
  | unlock
  | spawn (h : Nat)
  deriving DecidableEq, Repr

/-- The body of `start_all_tunnels` (`main.c:530-539`) from loop index `i`:
for every tunnel — with no mutex acquisition and no `should_run` check —
set `should_run := 1` and call `pthread_create`, overwriting the stored
worker handle; on create failure clear `should_run`. -/
def start_all_from (spawnOk : Nat → Bool) (base : Nat) :
    Nat → List Tunnel → List Tunnel × List MgrEvent
  | _, [] => ([], [])
  | i, t :: rest =>
      let t' :=
        if spawnOk i then { t with should_run := true, thread := some (base + i) }
        else { t with should_run := false, thread := some (base + i) }
      let r := start_all_from spawnOk base (i + 1) rest
      (t' :: r.1, MgrEvent.spawn (base + i) :: r.2)

/-- `start_all_tunnels` (`main.c:530-539`). -/
def start_all_tunnels (spawnOk : Nat → Bool) (base : Nat)
    (tbl : List Tunnel) : List Tunnel × List MgrEvent :=
  start_all_from spawnOk base 0 tbl

/-- The scan loop of `start_tunnel_by_name` (`main.c:560-577`): first name
match is started only if `should_run` is not already set (the double-start
check warns and leaves the tunnel untouched); the loop breaks at the
match. -/
def start_by_name_scan (spawnOk : Bool) (fresh : Nat) :
    List Tunnel → String → List Tunnel × List MgrEvent × Bool
  | [], _ => ([], [], false)
  | t :: rest, nm =>
      if t.name = nm then
        if t.should_run = false then
          (( if spawnOk then { t with should_run := true, thread := some fresh }
             else { t with should_run := false, thread := some fresh }) :: rest,
           [MgrEvent.spawn fresh], true)
        else (t :: rest, [], true)
      else
        let r := start_by_name_scan spawnOk fresh rest nm
        (t :: r.1, r.2.1, r.2.2)

/-- `start_tunnel_by_name` (`main.c:557-583`): takes the manager lock
around the scan. -/
def start_tunnel_by_name (spawnOk : Bool) (fresh : Nat)
    (tbl : List Tunnel) (nm : String) : List Tunnel × List MgrEvent × Bool :=
  let r := start_by_name_scan spawnOk fresh tbl nm
  (r.1, MgrEvent.lock :: r.2.1 ++ [MgrEvent.unlock], r.2.2)

/-- The `snprintf(cmd, sizeof(cmd), ...)` bound: `cmd` is
`char[MAX_CMD_LEN]` = `char[512]`, so at most 511 characters are kept. -/
def snprintf512 (s : String) : String :=
  String.mk (s.data.take 511)

/-- The SSH command formatted by the worker (`main.c:175-187`): both output
streams merged via the trailing `2>&1`; `%d` renders through `toString` on
`Int`, matching C's `%d` for the stored values. -/
def worker_cmd_raw (t : Tunnel) : String :=
  if t.ttype = TunnelType.REVERSE then
    "ssh -i " ++ t.ssh_key ++ " -N -R " ++ toString t.remote_port ++ ":" ++
      t.remote_host ++ ":" ++ toString t.local_port ++ " " ++ t.user ++ "@" ++
      t.host ++ " -p " ++ toString t.port ++
      " -o ConnectTimeout=10 -o ServerAliveInterval=30 -o IdentitiesOnly=yes -o BatchMode=yes -o StrictHostKeyChecking=no 2>&1"
  else
    "ssh -i " ++ t.ssh_key ++ " -N -L " ++ toString t.local_port ++ ":" ++
      t.remote_host ++ ":" ++ toString t.remote_port ++ " " ++ t.user ++ "@" ++
      t.host ++ " -p " ++ toString t.port ++
      " -o ConnectTimeout=10 -o ServerAliveInterval=30 -o IdentitiesOnly=yes -o BatchMode=yes -o StrictHostKeyChecking=no 2>&1"

/-- The SSH command printed by the `debug` command
(`main.c:1059-1069` and `main.c:1089-1099`, both call sites identical): the
same format as the worker's except without the trailing ` 2>&1`. -/
def debug_cmd_raw (t : Tunnel) : String :=
  if t.ttype = TunnelType.REVERSE then
    "ssh -i " ++ t.ssh_key ++ " -N -R " ++ toString t.remote_port ++ ":" ++
      t.remote_host ++ ":" ++ toString t.local_port ++ " " ++ t.user ++ "@" ++
      t.host ++ " -p " ++ toString t.port ++
      " -o ConnectTimeout=10 -o ServerAliveInterval=30 -o IdentitiesOnly=yes -o BatchMode=yes -o StrictHostKeyChecking=no"
  else
    "ssh -i " ++ t.ssh_key ++ " -N -L " ++ toString t.local_port ++ ":" ++
      t.remote_host ++ ":" ++ toString t.remote_port ++ " " ++ t.user ++ "@" ++
      t.host ++ " -p " ++ toString t.port ++
      " -o ConnectTimeout=10 -o ServerAliveInterval=30 -o IdentitiesOnly=yes -o BatchMode=yes -o StrictHostKeyChecking=no"

/-- The command the worker hands to `popen`. -/
def worker_cmd (t : Tunnel) : String := snprintf512 (worker_cmd_raw t)

/-- The command the `debug` command prints. -/
def debug_cmd (t : Tunnel) : String := snprintf512 (debug_cmd_raw t)

theorem authTriggers_subset_early :
    ∀ p ∈ authTriggers, p ∈ earlyTriggers := by decide

theorem portTriggers_subset_early :
    ∀ p ∈ portTriggers, p ∈ earlyTriggers := by decide

/-- **C1.** The early-output classifier is a total, deterministic function of
the accumulated output string: any string containing an AUTH trigger is
classified `AUTH_ERROR`; a string containing no AUTH trigger but some PORT
trigger is classified `PORT_ERROR`; a string containing some trigger but no
AUTH and no PORT trigger is classified `ERROR`.  Precedence AUTH > PORT >
ERROR therefore holds whenever several buckets' substrings appear. -/
theorem classify_early_output_precedence (s : String) :
    (authTriggers.any (fun p => strstrB s p) = true →
      classify_early_output true s = some TunnelStatus.AUTH_ERROR) ∧
    (authTriggers.any (fun p => strstrB s p) = false →
      portTriggers.any (fun p => strstrB s p) = true →
      classify_early_output true s = some TunnelStatus.PORT_ERROR) ∧
    (earlyTriggers.any (fun p => strstrB s p) = true →
      authTriggers.any (fun p => strstrB s p) = false →
      portTriggers.any (fun p => strstrB s p) = false →
      classify_early_output true s = some TunnelStatus.ERROR) := by
  refine ⟨?_, ?_, ?_⟩
  · intro hauth
    have houter : earlyTriggers.any (fun p => strstrB s p) = true := by
      rcases List.any_eq_true.mp hauth with ⟨p, hp, hs⟩
      exact List.any_eq_true.mpr ⟨p, authTriggers_subset_early p hp, hs⟩
    simp [classify_early_output, houter, hauth]
  · intro hauth hport
    have houter : earlyTriggers.any (fun p => strstrB s p) = true := by
      rcases List.any_eq_true.mp hport with ⟨p, hp, hs⟩
      exact List.any_eq_true.mpr ⟨p, portTriggers_subset_early p hp, hs⟩
    simp [classify_early_output, houter, hauth, hport]
  · intro houter hauth hport
    simp [classify_early_output, houter, hauth, hport]

/-- Witness for C1 at a concrete output string containing substrings of all
three buckets; the AUTH bucket wins. -/
theorem classify_early_output_precedence_witness :
    classify_early_output true
      "Permissions too open | bind: Address already in use | Connection refused"
      = some TunnelStatus.AUTH_ERROR :=
  (classify_early_output_precedence
    "Permissions too open | bind: Address already in use | Connection refused").1
    (by decide)

/-- **C3 counterexample.** A parsed document whose top-level object does hold
an array under `tunnels`, of 33 (null) elements: the claim says the load
succeeds (appends the valid entries up to capacity), but `load_config`
returns the error value because the array size exceeds `MAX_TUNNELS`
(`main.c:400-405`). -/
theorem load_config_rejects_over_capacity :
    jsonLookup (JValue.jobj [("tunnels", JValue.jarr (List.replicate 33 JValue.jnull))])
        "tunnels" = some (JValue.jarr (List.replicate 33 JValue.jnull)) ∧
    load_config true
        (JValue.jobj [("tunnels", JValue.jarr (List.replicate 33 JValue.jnull))]) = none := by
  constructor
  · rfl
  · rfl

/-- **C3 (amended).** When the document holds an array under the key
`tunnels`, the load succeeds iff the array has at most `MAX_TUNNELS`
elements, and then the table is exactly the array's parseable entries
(invalid entries are skipped without failing the load); an array larger
than capacity fails the whole load.  When the document holds no array under
`tunnels`, the load fails.  (File-missing/unreadable and JSON syntax errors
abort before the document stage and also fail.) -/
theorem load_config_characterization :
    (∀ (logOk : Bool) (doc : JValue) (xs : List JValue),
      jsonLookup doc "tunnels" = some (JValue.jarr xs) →
      load_config logOk doc =
        if xs.length ≤ MAX_TUNNELS then
          some (xs.filterMap (parse_tunnel_entry logOk))
        else none) ∧
    (∀ (logOk : Bool) (doc : JValue),
      (∀ xs : List JValue, jsonLookup doc "tunnels" ≠ some (JValue.jarr xs)) →
      load_config logOk doc = none) := by
  constructor
  · intro logOk doc xs h
    by_cases hl : xs.length ≤ MAX_TUNNELS
    · have hgt : ¬ xs.length > MAX_TUNNELS := by omega
      simp [load_config, h, hgt, hl]
    · have hgt : xs.length > MAX_TUNNELS := by omega
      simp [load_config, h, hgt, hl]
  · intro logOk doc h
    unfold load_config
    cases hv : jsonLookup doc "tunnels" with
    | none => rfl
    | some v =>
      cases v with
      | jarr xs => exact absurd hv (h xs)
      | jnull => rfl
      | jbool b => rfl
      | jnum n => rfl
      | jstr s => rfl
      | jobj fields => rfl

/-- Witness for C3: a document with an empty `tunnels` array loads to the
empty table; a document with no object structure fails to load. -/
theorem load_config_characterization_witness :
    load_config true (JValue.jobj [("tunnels", JValue.jarr [])]) = some [] ∧
    load_config true JValue.jnull = none := by
  constructor
  · have h := load_config_characterization.1 true
      (JValue.jobj [("tunnels", JValue.jarr [])]) [] rfl
    simpa using h
  · exact load_config_characterization.2 true JValue.jnull
      (by intro xs hx; simp [jsonLookup] at hx)

theorem parse_tunnel_entry_to_json (logOk : Bool) (t : Tunnel) :
    parse_tunnel_entry logOk (tunnel_to_json t) = some (reload_tunnel logOk t) := rfl

theorem strncpyN_of_le (s : String) (n : Nat) (h : s.data.length ≤ n) :
    strncpyN s n = s := by
  simp [strncpyN, List.take_of_length_le h]

theorem persisted_reload (logOk : Bool) (t : Tunnel) (hb : fieldsInBounds t) :
    persisted (reload_tunnel logOk t) = persisted t := by
  obtain ⟨h1, h2, h3, h4, h5⟩ := hb
  simp only [persisted, reload_tunnel]
  cases ht : t.ttype <;>
    simp [strncpyN_of_le _ _ h1, strncpyN_of_le _ _ h2, strncpyN_of_le _ _ h3,
          strncpyN_of_le _ _ h4, strncpyN_of_le _ _ h5]

/-- **C6.** Persistence round-trips: for every table that satisfies the
bounds the C representation enforces (at most `MAX_TUNNELS` entries, field
lengths within their buffers), re-loading the document written by
`save_config` yields a table equal to the saved one on the persisted field
subset; and the writer emits exactly the ten configuration keys for every
tunnel — never `status`, `restart_count`, `last_restart`, worker handles,
or log sinks. -/
theorem save_load_roundtrip (logOk : Bool) (tbl : List Tunnel)
    (hlen : tbl.length ≤ MAX_TUNNELS) (hb : ∀ t ∈ tbl, fieldsInBounds t) :
    (∃ tbl', load_config logOk (save_config tbl) = some tbl' ∧
      tbl'.map persisted = tbl.map persisted) ∧
    (∀ t : Tunnel, objKeys (tunnel_to_json t) =
      ["name", "user", "host", "port", "ssh_key", "type",
       "local_port", "remote_host", "remote_port", "reconnect_delay"]) := by
  constructor
  · refine ⟨tbl.map (reload_tunnel logOk), ?_, ?_⟩
    · have harr : jsonLookup (save_config tbl) "tunnels"
          = some (JValue.jarr (tbl.map tunnel_to_json)) := rfl
      have h := load_config_characterization.1 logOk (save_config tbl)
        (tbl.map tunnel_to_json) harr
      rw [h, if_pos (by simpa using hlen)]
      congr 1
      rw [List.filterMap_map]
      have : ∀ x ∈ tbl, (parse_tunnel_entry logOk ∘ tunnel_to_json) x
          = some (reload_tunnel logOk x) := by
        intro x _
        exact parse_tunnel_entry_to_json logOk x
      rw [List.filterMap_congr this,
        show (fun x => some (reload_tunnel logOk x)) = some ∘ reload_tunnel logOk from rfl,
        List.filterMap_eq_map]
    · rw [List.map_map]
      apply List.map_congr_left
      intro t ht
      exact persisted_reload logOk t (hb t ht)
  · intro t
    rfl

/-- Witness for C6 at a concrete one-tunnel table. -/
theorem save_load_roundtrip_witness :
    (∃ tbl', load_config true (save_config
        [{ name := "db-prod", host := "example.com", port := 22, user := "ops",
           ssh_key := "/home/ops/.ssh/id", ttype := TunnelType.FORWARD,
           local_port := 5432, remote_host := "127.0.0.1", remote_port := 5432,
           reconnect_delay := 5, restart_count := 7,
           status := TunnelStatus.RUNNING, last_restart := 100,
           thread := some 3, log := true, ssh_pid := 0, should_run := true }])
        = some tbl' ∧
      tbl'.map persisted =
        [{ name := "db-prod", host := "example.com", port := 22, user := "ops",
           ssh_key := "/home/ops/.ssh/id", ttype := TunnelType.FORWARD,
           local_port := 5432, remote_host := "127.0.0.1", remote_port := 5432,
           reconnect_delay := 5, restart_count := 7,
           status := TunnelStatus.RUNNING, last_restart := 100,
           thread := some 3, log := true, ssh_pid := 0, should_run := true }].map persisted) := by
  have h := save_load_roundtrip true
    [{ name := "db-prod", host := "example.com", port := 22, user := "ops",
       ssh_key := "/home/ops/.ssh/id", ttype := TunnelType.FORWARD,
       local_port := 5432, remote_host := "127.0.0.1", remote_port := 5432,
       reconnect_delay := 5, restart_count := 7,
       status := TunnelStatus.RUNNING, last_restart := 100,
       thread := some 3, log := true, ssh_pid := 0, should_run := true }]
    (by decide)
    (by intro t ht
        simp only [List.mem_singleton] at ht
        subst ht
        refine ⟨?_, ?_, ?_, ?_, ?_⟩ <;> decide)
  exact h.1

/-- **C9.** Whenever the operator selects the reverse tunnel type and the
add succeeds, the stored `remote_host` is the constant `"127.0.0.1"`
regardless of any other operator input (`main.c:711-714`). -/
theorem add_reverse_remote_host_is_localhost (script : AddScript)
    (fs : FsOracle) (tbl tbl' : List Tunnel)
    (hrev : firstCharIs_rR script.typeInput = true)
    (hadd : add_tunnel_interactive script fs tbl = (tbl', true)) :
    ∃ t : Tunnel, tbl' = tbl ++ [t] ∧ t.remote_host = "127.0.0.1" ∧
      t.ttype = TunnelType.REVERSE := by
  unfold add_tunnel_interactive at hadd
  split_ifs at hadd
  · simp at hadd
  · simp at hadd
  · simp at hadd
  · simp at hadd
  · simp at hadd
  · injection hadd with heq _
    refine ⟨add_candidate script fs, heq.symm, ?_, ?_⟩
    · simp [add_candidate, remote_host_of, tunnel_type_of, hrev]
      rfl
    · simp [add_candidate, tunnel_type_of, hrev]

/-- Witness for C9 at a concrete prompt script answering `r` to the type
question and a host other than localhost to every host-like prompt. -/
theorem add_reverse_remote_host_is_localhost_witness :
    ∃ t : Tunnel,
      (add_tunnel_interactive
        { nameInput := "imm", userInput := "u", hostInput := "srv.example",
          sshKeyInput := "/home/u/.ssh/id", typeInput := "r",
          remoteHostInput := "db.internal", portInput := 22,
          localPortInput := 2283, remotePortInput := 6983,
          reconnectDelayInput := none, confirmLoose := "" }
        { keyExists := true, keyPerms := 384, logOk := true } []).1
        = [] ++ [t] ∧
      t.remote_host = "127.0.0.1" ∧ t.ttype = TunnelType.REVERSE := by
  obtain ⟨t, h1, h2, h3⟩ := add_reverse_remote_host_is_localhost
    { nameInput := "imm", userInput := "u", hostInput := "srv.example",
      sshKeyInput := "/home/u/.ssh/id", typeInput := "r",
      remoteHostInput := "db.internal", portInput := 22,
      localPortInput := 2283, remotePortInput := 6983,
      reconnectDelayInput := none, confirmLoose := "" }
    { keyExists := true, keyPerms := 384, logOk := true } []
    (add_tunnel_interactive
      { nameInput := "imm", userInput := "u", hostInput := "srv.example",
        sshKeyInput := "/home/u/.ssh/id", typeInput := "r",
        remoteHostInput := "db.internal", portInput := 22,
        localPortInput := 2283, remotePortInput := 6983,
        reconnectDelayInput := none, confirmLoose := "" }
      { keyExists := true, keyPerms := 384, logOk := true } []).1
    (by decide) (by decide)
  exact ⟨t, h1, h2, h3⟩

/-- **C8 counterexample.** The validation at `main.c:730-736` only tests
`port <= 0 || local_port <= 0 || remote_port <= 0`: an SSH port of 70000,
outside the claimed 1–65535 range, is accepted and the tunnel is appended
to the table. -/
theorem add_accepts_port_above_65535 :
    (add_tunnel_interactive scriptPort70000 fsOk []).2 = true ∧
    (add_tunnel_interactive scriptPort70000 fsOk []).1.length = 1 ∧
    scriptPort70000.portInput = 70000 ∧
    (65535 : Int) < scriptPort70000.portInput := by decide

/-- **C8 (amended).** `add` rejects — returning with the table unchanged —
any input whose `port`, `local_port` or `remote_port` is nonpositive, or
whose `name`, `user`, `host`, `ssh_key`, or (for a forward tunnel)
`remote_host` answer is empty; ports above 65535 are not checked.  (For a
reverse tunnel `remote_host` is forced to `"127.0.0.1"` and cannot be
empty.) -/
theorem add_rejects_nonpositive_or_empty (script : AddScript) (fs : FsOracle)
    (tbl : List Tunnel)
    (h : script.portInput ≤ 0 ∨ script.localPortInput ≤ 0 ∨
         script.remotePortInput ≤ 0 ∨ script.nameInput = "" ∨
         script.userInput = "" ∨ script.hostInput = "" ∨
         script.sshKeyInput = "" ∨
         (firstCharIs_rR script.typeInput = false ∧ script.remoteHostInput = "")) :
    add_tunnel_interactive script fs tbl = (tbl, false) := by
  have hvalid : add_invalid_input script := by
    unfold add_invalid_input
    rcases h with hp | hp | hp | hp | hp | hp | hp | ⟨hf, hp⟩
    · exact Or.inr (Or.inr (Or.inr (Or.inr (Or.inr (Or.inl hp)))))
    · exact Or.inr (Or.inr (Or.inr (Or.inr (Or.inr (Or.inr (Or.inl hp))))))
    · exact Or.inr (Or.inr (Or.inr (Or.inr (Or.inr (Or.inr (Or.inr hp))))))
    · exact Or.inl (by rw [hp]; rfl)
    · exact Or.inr (Or.inl (by rw [hp]; rfl))
    · exact Or.inr (Or.inr (Or.inl (by rw [hp]; rfl)))
    · exact Or.inr (Or.inr (Or.inr (Or.inl (by rw [hp]; rfl))))
    · refine Or.inr (Or.inr (Or.inr (Or.inr (Or.inl ?_))))
      rw [remote_host_of, tunnel_type_of, hf]
      rw [hp]
      rfl
  unfold add_tunnel_interactive
  by_cases hcap : tbl.length ≥ MAX_TUNNELS
  · rw [if_pos hcap]
  · rw [if_neg hcap, if_pos hvalid]

/-- Witness for the amended C8: a local-port answer of 0 is rejected and
the (empty) table is unchanged. -/
theorem add_rejects_nonpositive_or_empty_witness :
    add_tunnel_interactive
      { nameInput := "z", userInput := "u", hostInput := "h",
        sshKeyInput := "/k", typeInput := "f", remoteHostInput := "r",
        portInput := 22, localPortInput := 0, remotePortInput := 80,
        reconnectDelayInput := none, confirmLoose := "" } fsOk []
      = ([], false) :=
  add_rejects_nonpositive_or_empty _ fsOk []
    (Or.inr (Or.inl (by decide)))

/-- **C2 counterexample.** `load_config` performs no duplicate-name check
(`main.c:409-483`): a config file with two entries named `dup` produces a
table with two tunnels of that name, so names are not unique under every
load/add sequence. -/
theorem load_config_duplicate_names :
    (load_config true dupDoc).isSome = true ∧
    ((load_config true dupDoc).getD []).map Tunnel.name = ["dup", "dup"] ∧
    ¬ (((load_config true dupDoc).getD []).map Tunnel.name).Nodup := by decide

theorem strncpyN_idem (s : String) (n : Nat) :
    strncpyN (strncpyN s n) n = strncpyN s n := by
  simp [strncpyN, List.take_take]

theorem add_preserves_nodup (script : AddScript) (fs : FsOracle)
    (tbl : List Tunnel) (h : (tbl.map Tunnel.name).Nodup) :
    (((add_tunnel_interactive script fs tbl).1).map Tunnel.name).Nodup := by
  unfold add_tunnel_interactive
  split_ifs with hcap hval hkey hperm hdup
  · exact h
  · exact h
  · exact h
  · exact h
  · exact h
  · rw [List.map_append]
    refine List.Nodup.append h (List.nodup_singleton _) ?_
    intro a ha ha'
    simp only [List.map_cons, List.map_nil, List.mem_singleton] at ha'
    rw [show (add_candidate script fs).name = strncpyN script.nameInput 63 from
      strncpyN_idem script.nameInput 63] at ha'
    rcases List.mem_map.mp ha with ⟨u, hu, rfl⟩
    exact hdup ⟨u, hu, ha'⟩

/-- **C2 (amended).** Tunnel names stay unique across the table under every
sequence of interactive `add` operations starting from a duplicate-free
table (`add` scans for the name and refuses duplicates,
`main.c:762-770`); `load_config` however performs no such check, so a
config file with two same-named entries does produce two table entries
with that name. -/
theorem add_sequences_preserve_name_uniqueness
    (ops : List (AddScript × FsOracle)) (tbl : List Tunnel)
    (h : (tbl.map Tunnel.name).Nodup) :
    ((apply_adds ops tbl).map Tunnel.name).Nodup := by
  induction ops generalizing tbl with
  | nil => exact h
  | cons op rest ih => exact ih _ (add_preserves_nodup op.1 op.2 tbl h)

/-- Witness for the amended C2: two adds of the same name from the empty
table leave a duplicate-free (one-entry) result. -/
theorem add_sequences_preserve_name_uniqueness_witness :
    ((apply_adds
      [ ({ nameInput := "dup", userInput := "u", hostInput := "h",
           sshKeyInput := "/k", typeInput := "f", remoteHostInput := "r",
           portInput := 22, localPortInput := 1, remotePortInput := 2,
           reconnectDelayInput := none, confirmLoose := "" }, fsOk)
      , ({ nameInput := "dup", userInput := "u2", hostInput := "h2",
           sshKeyInput := "/k2", typeInput := "f", remoteHostInput := "r2",
           portInput := 222, localPortInput := 11, remotePortInput := 22,
           reconnectDelayInput := none, confirmLoose := "" }, fsOk) ]
      []).map Tunnel.name).Nodup :=
  add_sequences_preserve_name_uniqueness _ [] (by decide)

/-- **C4.** When the supervised SSH child exits, the worker sets the status
as a function of the exit code and `should_run`: 255 yields `AUTH_ERROR`;
any other nonzero code yields `ERROR`; 0 yields `RECONNECTING` when
`should_run` is still true, and `STOPPED` with the loop ending (`break`)
when it is false. -/
theorem worker_exit_code_classification (e : Int) (r : Bool) :
    (e = 255 → worker_exit_transition e r = (TunnelStatus.AUTH_ERROR, false)) ∧
    (e ≠ 0 → e ≠ 255 → worker_exit_transition e r = (TunnelStatus.ERROR, false)) ∧
    worker_exit_transition 0 true = (TunnelStatus.RECONNECTING, false) ∧
    worker_exit_transition 0 false = (TunnelStatus.STOPPED, true) := by
  refine ⟨?_, ?_, rfl, rfl⟩
  · rintro rfl
    rfl
  · intro hnz hne
    rw [worker_exit_transition, if_pos hnz, if_neg hne]

/-- Witness for C4 at the exit codes 255 and 1. -/
theorem worker_exit_code_classification_witness :
    worker_exit_transition 255 true = (TunnelStatus.AUTH_ERROR, false) ∧
    worker_exit_transition 1 true = (TunnelStatus.ERROR, false) := by
  constructor
  · exact (worker_exit_code_classification 255 true).1 rfl
  · exact (worker_exit_code_classification 1 true).2.1 (by decide) (by decide)

/-- **C7.** `reset(name)` zeros the matching tunnel's restart counter as
part of the stop-then-start transition, and when the spawn succeeds the
fresh worker's first loop iteration (under the still-running manager)
brings `restart_count` to exactly 1. -/
theorem reset_zeroes_restart_count (tbl tbl' : List Tunnel) (nm : String)
    (fresh : Nat) (now : Int)
    (hres : reset_tunnel_by_name fresh true tbl nm = (tbl', true)) :
    ∃ (i : Nat) (t' : Tunnel), tbl'.get? i = some t' ∧ t'.name = nm ∧
      t'.restart_count = 0 ∧ t'.should_run = true ∧ t'.thread = some fresh ∧
      (worker_iteration_enter t' true now).restart_count = 1 := by
  induction tbl generalizing tbl' with
  | nil => simp [reset_tunnel_by_name] at hres
  | cons t rest ih =>
    unfold reset_tunnel_by_name at hres
    by_cases hn : t.name = nm
    · rw [if_pos hn] at hres
      injection hres with h1 _
      refine ⟨0, reset_one fresh true t, ?_, ?_, rfl, rfl, rfl, ?_⟩
      · rw [← h1]
        rfl
      · simpa [reset_one] using hn
      · simp [worker_iteration_enter, reset_one]
    · rw [if_neg hn] at hres
      injection hres with h1 h2
      obtain ⟨i, t', hget, ht'⟩ := ih _ (by rw [Prod.ext_iff]; exact ⟨rfl, h2⟩)
      exact ⟨i + 1, t', by rw [← h1]; simpa using hget, ht'⟩

/-- Witness for C7: resetting `db-prod` in a one-tunnel table. -/
theorem reset_zeroes_restart_count_witness :
    ∃ (i : Nat) (t' : Tunnel),
      ((reset_tunnel_by_name 10 true [sampleTunnel] "db-prod").1).get? i
        = some t' ∧ t'.name = "db-prod" ∧
      t'.restart_count = 0 ∧ t'.should_run = true ∧ t'.thread = some 10 ∧
      (worker_iteration_enter t' true 777).restart_count = 1 :=
  reset_zeroes_restart_count [sampleTunnel]
    (reset_tunnel_by_name 10 true [sampleTunnel] "db-prod").1
    "db-prod" 10 777 (by decide)

theorem start_all_from_get (spawnOk : Nat → Bool) (base : Nat)
    (tbl : List Tunnel) :
    ∀ (i j : Nat) (t : Tunnel), tbl.get? j = some t → spawnOk (i + j) = true →
      ((start_all_from spawnOk base i tbl).1).get? j
        = some { t with should_run := true, thread := some (base + (i + j)) } ∧
      MgrEvent.spawn (base + (i + j)) ∈ (start_all_from spawnOk base i tbl).2 := by
  induction tbl with
  | nil => intro i j t ht _; simp at ht
  | cons t0 rest ih =>
    intro i j t ht hok
    cases j with
    | zero =>
      simp only [List.get?] at ht
      injection ht with ht
      subst ht
      constructor
      · simp only [start_all_from]
        rw [show i + 0 = i from rfl] at hok ⊢
        simp [hok]
      · simp [start_all_from]
    | succ j' =>
      simp only [List.get?] at ht
      have hok' : spawnOk ((i + 1) + j') = true := by
        rw [show (i + 1) + j' = i + (j' + 1) by omega]
        exact hok
      obtain ⟨h1, h2⟩ := ih (i + 1) j' t ht hok'
      rw [show (i + 1) + j' = i + (j' + 1) by omega] at h1 h2
      exact ⟨by simpa [start_all_from] using h1, by simp [start_all_from, h2]⟩

theorem start_all_from_no_lock (spawnOk : Nat → Bool) (base : Nat) :
    ∀ (i : Nat) (tbl : List Tunnel),
      MgrEvent.lock ∉ (start_all_from spawnOk base i tbl).2 := by
  intro i tbl
  induction tbl generalizing i with
  | nil => simp [start_all_from]
  | cons t rest ih => simp [start_all_from, ih]

/-- **C10.** `start_all_tunnels` (the plain `start` command) emits no lock
acquisition, and unconditionally sets `should_run` and spawns a fresh
worker handle for every tunnel whose `pthread_create` succeeds — with no
double-start check, so a tunnel that already has a worker
(`should_run = true`, a stored handle below `base`) gets a second spawn
event and its handle overwritten — whereas `start_tunnel_by_name` takes
the lock and leaves such a tunnel untouched with no spawn at all. -/
theorem start_all_no_lock_no_double_start_check (spawnOk : Nat → Bool)
    (base : Nat) (tbl : List Tunnel) (j : Nat) (t : Tunnel) (h0 : Nat)
    (spawnOk1 : Bool) (fresh : Nat)
    (ht : tbl.get? j = some t) (hok : spawnOk j = true)
    (hrun : t.should_run = true) (hth : t.thread = some h0) (hlt : h0 < base) :
    MgrEvent.lock ∉ (start_all_tunnels spawnOk base tbl).2 ∧
    ((start_all_tunnels spawnOk base tbl).1).get? j
      = some { t with should_run := true, thread := some (base + j) } ∧
    MgrEvent.spawn (base + j) ∈ (start_all_tunnels spawnOk base tbl).2 ∧
    ((start_all_tunnels spawnOk base tbl).1).get? j ≠ some t ∧
    (t.name ∉ (tbl.take j).map Tunnel.name →
      start_tunnel_by_name spawnOk1 fresh tbl t.name
        = (tbl, [MgrEvent.lock, MgrEvent.unlock], true)) := by
  have hok0 : spawnOk (0 + j) = true := by simpa using hok
  obtain ⟨hget, hmem⟩ := start_all_from_get spawnOk base tbl 0 j t ht hok0
  rw [show (0 : Nat) + j = j from by omega] at hget hmem
  refine ⟨start_all_from_no_lock spawnOk base 0 tbl, hget, hmem, ?_, ?_⟩
  · unfold start_all_tunnels
    rw [hget]
    intro hcontra
    injection hcontra with hcontra
    have := congrArg Tunnel.thread hcontra
    simp only [hth] at this
    injection this with this
    omega
  · intro hnotbefore
    suffices hscan : start_by_name_scan spawnOk1 fresh tbl t.name
        = (tbl, [], true) by
      simp [start_tunnel_by_name, hscan]
    clear hget hmem hok0 hok
    induction tbl generalizing j with
    | nil => simp at ht
    | cons t0 rest ih =>
      cases j with
      | zero =>
        simp only [List.get?] at ht
        injection ht with ht
        subst ht
        simp [start_by_name_scan, hrun]
      | succ j' =>
        simp only [List.get?] at ht
        rw [List.take_succ_cons, List.map_cons, List.mem_cons] at hnotbefore
        push_neg at hnotbefore
        obtain ⟨hne, hnb'⟩ := hnotbefore
        have hres := ih j' ht hnb'
        have hne' : ¬ t0.name = t.name := fun he => hne he.symm
        simp [start_by_name_scan, hne', hres]

/-- Witness for C10: a one-tunnel table whose tunnel already has worker
handle 9 and `should_run` set. -/
theorem start_all_no_lock_no_double_start_check_witness :
    MgrEvent.lock ∉ (start_all_tunnels (fun _ => true) 100 [sampleTunnel]).2 ∧
    ((start_all_tunnels (fun _ => true) 100 [sampleTunnel]).1).get? 0
      = some { sampleTunnel with should_run := true, thread := some (100 + 0) } ∧
    MgrEvent.spawn (100 + 0) ∈ (start_all_tunnels (fun _ => true) 100 [sampleTunnel]).2 ∧
    ((start_all_tunnels (fun _ => true) 100 [sampleTunnel]).1).get? 0
      ≠ some sampleTunnel ∧
    (sampleTunnel.name ∉ ([sampleTunnel].take 0).map Tunnel.name →
      start_tunnel_by_name true 55 [sampleTunnel] sampleTunnel.name
        = ([sampleTunnel], [MgrEvent.lock, MgrEvent.unlock], true)) :=
  start_all_no_lock_no_double_start_check (fun _ => true) 100 [sampleTunnel]
    0 sampleTunnel 9 true 55 (by decide) (by decide) (by decide) (by decide)
    (by decide)

theorem string_eq_of_data (a b : String) (h : a.data = b.data) : a = b := by
  cases a
  cases b
  exact congrArg String.mk h

set_option maxRecDepth 16384 in
/-- **C5 counterexample.** For a concrete tunnel the worker's spawned
command and the `debug` rendering are different strings: the worker's ends
in ` 2>&1`, the debug print does not. -/
theorem debug_cmd_differs_from_worker_cmd :
    worker_cmd sampleTunnel ≠ debug_cmd sampleTunnel := by decide

set_option maxRecDepth 16384 in
theorem worker_cmd_raw_eq_debug_append (t : Tunnel) :
    worker_cmd_raw t = debug_cmd_raw t ++ " 2>&1" := by
  have hsplit :
      (" -o ConnectTimeout=10 -o ServerAliveInterval=30 -o IdentitiesOnly=yes -o BatchMode=yes -o StrictHostKeyChecking=no 2>&1" : String).data
        = (" -o ConnectTimeout=10 -o ServerAliveInterval=30 -o IdentitiesOnly=yes -o BatchMode=yes -o StrictHostKeyChecking=no" : String).data
          ++ (" 2>&1" : String).data := by decide
  rcases ht : t.ttype <;>
  · apply string_eq_of_data
    simp [worker_cmd_raw, debug_cmd_raw, ht, String.data_append, hsplit,
      List.append_assoc]

/-- **C5 (amended).** Whenever the rendered command fits the 512-byte
`cmd` buffer (raw debug form at most 506 characters, so that the worker
form with its 5-character suffix also fits), the command spawned by the
worker equals the `debug` rendering with the stderr-merge suffix ` 2>&1`
appended — and only that suffix distinguishes the two paths. -/
theorem worker_cmd_eq_debug_cmd_append (t : Tunnel)
    (h : (debug_cmd_raw t).data.length ≤ 506) :
    worker_cmd t = debug_cmd t ++ " 2>&1" := by
  apply string_eq_of_data
  rw [worker_cmd, debug_cmd, worker_cmd_raw_eq_debug_append t]
  show ((debug_cmd_raw t ++ " 2>&1").data.take 511)
      = (String.mk ((debug_cmd_raw t).data.take 511) ++ " 2>&1").data
  rw [String.data_append, String.data_append]
  rw [List.take_append_eq_append_take,
      List.take_of_length_le (h.trans (by norm_num)),
      List.take_of_length_le
        (show (" 2>&1" : String).data.length
            ≤ 511 - (debug_cmd_raw t).data.length from by
          have h5 : (" 2>&1" : String).data.length = 5 := by decide
          omega)]

set_option maxRecDepth 16384 in
/-- Witness for the amended C5 at a concrete (short) tunnel. -/
theorem worker_cmd_eq_debug_cmd_append_witness :
    worker_cmd sampleTunnel = debug_cmd sampleTunnel ++ " 2>&1" :=
  worker_cmd_eq_debug_cmd_append sampleTunnel (by decide)
